import Mathlib

/-!
Verification of `puf_stage1/cbo_chained_cpiu.py` and `puf_stage1/updatesoi.py`
(taxdata repository).

The scripts are shallowly embedded: a pandas DataFrame read with
`dtype=object` becomes a list of rows of `Cell` values; Python `None`
returns and uncaught exceptions become explicit constructors of small
result types; floats are modelled as rationals; messages written to
`sys.stderr` are accumulated in a list so that theorems can speak about
their content.
-/

/-- A spreadsheet cell as read by `pandas.read_excel(..., dtype=object)`:
a numeric value, a string, or an empty cell (pandas NaN, whose Python
`str` form is the string "nan"). -/
inductive Cell where
  | num (v : ℚ)
  | str (s : String)
  | empty
deriving DecidableEq, Repr

/-- The Python `str(obj)` form of a cell, as used when the script
materialises the label columns (`cbolabel[col] = [str(obj) ...]`).
An empty cell (NaN) stringifies to "nan"; the exact rendering of a
numeric cell is irrelevant to every claim, `toString` stands in for it. -/
def cellStr : Cell → String
  | .num v => toString v
  | .str s => s
  | .empty => "nan"

/-- A raw spreadsheet, row major, as the DataFrame grid. -/
def Table : Type := List (List Cell)

instance : DecidableEq Table := by
  unfold Table
  infer_instance

/-- Access `cbodf.iat[r, c]` / `cbolabel[c][r]`: cell at 0-based row `r`,
column `c`.  `none` models the out-of-bounds `IndexError` (pandas also
accepts negative wrap-around indices, but every index reached in this
script is provably nonnegative: rows 8 and 158, columns at or beyond E). -/
def getCell (t : Table) (r c : Nat) : Option Cell :=
  match List.get? t r with
  | none => none
  | some rowl => List.get? rowl c

/-- Convert spreadsheet row number (1-based) to DataFrame row index
(0-based). -/
def rindex (row_number : Nat) : Nat :=
  row_number - 1

/-- Convert spreadsheet column letter to DataFrame column index
(0-based), `ord(capital_letter) - ord("A")`. -/
def cindex (capital_letter : Char) : Int :=
  (capital_letter.toNat : Int) - (('A').toNat : Int)

/-- Python `str.startswith`: character-for-character prefix test. -/
def str_startswith (s pre : String) : Bool :=
  List.isPrefixOf pre.data s.data

/-- One endpoint of `CBO_YEAR`: a year and its column letter. -/
structure YearCol where
  year : Int
  col : Char
deriving DecidableEq, Repr

/-- The `CBO_YEAR` structure: first and last projection year with their
spreadsheet columns. -/
structure CboYear where
  first : YearCol
  last : YearCol
deriving DecidableEq, Repr

/-- The script's `CBO_YEAR` data: first year 2021 in column E, last
year 2034 in column R. -/
def CBO_YEAR : CboYear :=
  { first := { year := 2021, col := 'E' }
    last := { year := 2034, col := 'R' } }

/-- One entry of `CBO_ROWS`: spreadsheet row number, expected label, and
whether the optional "pct" key is present (it is absent from both rows
of this script). -/
structure RowSpec where
  row : Nat
  label : String
  pct : Bool
deriving DecidableEq, Repr

/-- The script's `CBO_ROWS` dict, as an association list because Python dict iteration
order (insertion order) matters to the validation loop. -/
def CBO_ROWS : List (String × RowSpec) :=
  [("year", { row := 8, label := "Tax Year", pct := false }),
   ("c_cpiu", { row := 158, label := "Chained consumer price index", pct := false })]

/-- The script's `CBO_STR_COLS = [0, 1, 2, 3]`: the columns A:D expected to hold
string labels. -/
def CBO_STR_COLS : List Nat := [0, 1, 2, 3]

/-- Result of `cbo_value`: the Python `None` return, a returned cell
value, or an uncaught exception. -/
inductive CboResult where
  | noneVal
  | value (c : Cell)
  | raised (msg : String)
deriving DecidableEq, Repr

/-- Python `round(x, 6)` on the dead "pct" path, modelled on rationals. -/
def round6 (q : ℚ) : ℚ :=
  ((round (q * 1000000) : ℤ) : ℚ) / 1000000

/-- The column letter computed in `cbo_value`:
`chr(ord(CBO_YEAR["first"]["col"]) + year - first_year)`.
Only evaluated after the guard `first_year ≤ year`, so the offset is
nonnegative. -/
def cbo_letter (year : Int) : Char :=
  Char.ofNat (CBO_YEAR.first.col.toNat + (year - CBO_YEAR.first.year).toNat)

/-- Model of `cbo_value(cbodf, name, year)`: the Python function checks that
`name` is a key of `CBO_ROWS` and that `year` lies between the first and
last CBO year, returning `None` if any check fails; otherwise it reads
`cbodf.iat[rindex(row), cindex(letter)]` and returns it (the "pct"
branch divides by 100 and rounds, but no `CBO_ROWS` entry carries a
"pct" key, so it is unreachable here; a non-numeric value on that path
would raise a TypeError). -/
def cbo_value (cbodf : Table) (name : String) (year : Int) : CboResult :=
  match List.lookup name CBO_ROWS with
  | none => .noneVal
  | some cdict =>
    if year < CBO_YEAR.first.year then .noneVal
    else if year > CBO_YEAR.last.year then .noneVal
    else
      match getCell cbodf (rindex cdict.row) (cindex (cbo_letter year)).toNat with
      | none => .raised "IndexError"
      | some cell =>
        if cdict.pct then
          match cell with
          | .num v => .value (.num (round6 (v / 100)))
          | _ => .raised "TypeError"
        else .value cell

/-- Model of `check_cbo_year()`: returns 0 when the year span equals the column
span of `CBO_YEAR`, else 1 (the global is passed explicitly). -/
def check_cbo_year (cy : CboYear) : Nat :=
  let ydiff := cy.last.year - cy.first.year
  let cdiff := cindex cy.last.col - cindex cy.first.col
  if ydiff ≠ cdiff then 1 else 0

/-- Result of `read_cbo_label`: a label string, the Python `None` return
when every label column holds "nan", or an exception escaping the list
indexing (row index past the end of the DataFrame; the script would
equally crash, before the loop, if the sheet had fewer than four
columns). -/
inductive LabelResult where
  | found (s : String)
  | noLabel
  | err (msg : String)
deriving DecidableEq, Repr

/-- The loop of `read_cbo_label` over `CBO_STR_COLS`. -/
def read_cbo_labelAux (t : Table) (ridx : Nat) : List Nat → LabelResult
  | [] => .noLabel
  | c :: cs =>
    match getCell t ridx c with
    | none => .err "IndexError"
    | some cell =>
      if cellStr cell ≠ "nan" then .found (cellStr cell)
      else read_cbo_labelAux t ridx cs

/-- Model of `read_cbo_label(cbolabel, row)`: first label among columns A:D of
the given spreadsheet row whose string form is not "nan"; `None`
(`noLabel`) when all four are "nan". -/
def read_cbo_label (t : Table) (row : Nat) : LabelResult :=
  read_cbo_labelAux t (rindex row) CBO_STR_COLS

/-- Observable outcome of `read_check_spreadsheet`: a returned value
(`some` DataFrame or Python `None`), or an uncaught exception. -/
inductive Outcome where
  | ret (df : Option Table)
  | exn (msg : String)
deriving DecidableEq

/-- A run of the script fragment: the messages written to stderr and the
outcome. -/
structure Run where
  stderr : List String
  out : Outcome
deriving DecidableEq

/-- The `for cname, cdict in CBO_ROWS.items()` validation loop of
`read_check_spreadsheet`: for each field, read its label and require
`alabel.startswith(elabel)`.  When `read_cbo_label` returned `None`,
the attribute access `alabel.startswith` raises `AttributeError`. -/
def check_fields (t : Table) : List (String × RowSpec) → Run
  | [] => { stderr := [], out := .ret (some t) }
  | (cname, cdict) :: rest =>
    match read_cbo_label t cdict.row with
    | .err m => { stderr := [], out := .exn m }
    | .noLabel => { stderr := [], out := .exn "AttributeError" }
    | .found alabel =>
      if str_startswith alabel cdict.label then check_fields t rest
      else
        { stderr := ["READ: for " ++ cname ++ " expected label is " ++
                     cdict.label ++ " but found " ++ alabel]
          out := .ret none }

/-- Model of `read_check_spreadsheet(fname)`, generalised over the `CBO_YEAR` and
`CBO_ROWS` globals and over the external inputs: `lky`/`lby` are
`taxcalc.Policy.LAST_KNOWN_YEAR` / `LAST_BUDGET_YEAR`, and `readResult`
is the outcome of `pandas.read_excel` (`none` when the bare `except`
catches a read failure).  Order as in the source: the `CBO_YEAR`
consistency check, then the two Policy-year range checks, then the read,
then the per-field label loop. -/
def read_check_spreadsheet_gen (cy : CboYear) (rows : List (String × RowSpec))
    (lky lby : Int) (readResult : Option Table) : Run :=
  if check_cbo_year cy ≠ 0 then
    { stderr := ["STRUCT: CBO_YEAR contents are inconsistent"], out := .ret none }
  else
    let lkyOk : Bool := decide (cy.first.year + 1 ≤ lky) && decide (lky < cy.last.year)
    let lbyOk : Bool := decide (cy.first.year + 2 ≤ lby) && decide (lby < cy.last.year + 1)
    let msgs :=
      (if lkyOk then [] else
        ["STRUCT: Policy.LAST_KNOWN_YEAR=" ++ toString lky ++
         " inconsistent with CBO_YEAR info"]) ++
      (if lbyOk then [] else
        ["STRUCT: Policy.LAST_BUDGET_YEAR=" ++ toString lby ++
         " inconsistent with CBO_YEAR info"])
    if ¬ (lkyOk && lbyOk) then { stderr := msgs, out := .ret none }
    else
      match readResult with
      | none =>
        { stderr := ["READ: could not read sheet into a DataFrame"], out := .ret none }
      | some cbodf => check_fields cbodf rows

/-- Model of `read_check_spreadsheet` with the script's own globals. -/
def read_check_spreadsheet (lky lby : Int) (readResult : Option Table) : Run :=
  read_check_spreadsheet_gen CBO_YEAR CBO_ROWS lky lby readResult

/-!  `puf_stage1/updatesoi.py`: the table 1.4 wage-bucket path.

For the wage claims only the wage column and the row count of the
table 1.4 DataFrame matter, so the DataFrame is modelled by its wage
column (`data["Salaries and wages"]["Unnamed: 6_level_1"]["Unnamed:
6_level_2"]`), one rational per row; `len(data)` is the length of that
list.  The nonwage extraction (`table14_nonwages`) is independent of the
wage path and is not modelled. -/

/-- The script's `PUFWAGES`: inclusive wage-bucket row ranges for the PUF estimates. -/
def PUFWAGES : List (Nat × Nat) :=
  [(2, 2), (3, 4), (5, 6), (7, 8), (9, 9), (10, 10), (11, 11), (12, 12),
   (13, 13), (14, 14), (15, 15), (17, 20)]

/-- The script's `CPSWAGES`: inclusive wage-bucket row ranges for the CPS estimates. -/
def CPSWAGES : List (Nat × Nat) :=
  [(2, 4), (5, 6), (7, 8), (9, 9), (10, 10), (11, 11), (12, 12), (13, 20)]

/-- numpy `astype(int)`: truncation toward zero
(`Int.tdiv` is T-division, so `num.tdiv den` is the integer part). -/
def ratTrunc (q : ℚ) : Int :=
  Int.tdiv q.num (q.den : Int)

/-- Model of `data.iloc[i : j + 1].sum()`: Python slice `[i, j+1)` of the column,
summed — rows `i` through `j` inclusive (like Python slices,
`List.drop`/`List.take` clamp silently at the end of the list). -/
def sliceSum (xs : List ℚ) (i j : Nat) : ℚ :=
  ((xs.drop i).take (j + 1 - i)).sum

/-- Model of `table14_wages(data, indicies)`: asserts `len(data) == 21` before
any bucket is summed (`none` models the `AssertionError`), then returns
one truncated slice sum per `(i, j)` pair. -/
def table14_wages (data : List ℚ) (indicies : List (Nat × Nat)) : Option (List Int) :=
  if data.length = 21 then
    some (List.map (fun p => ratTrunc (sliceSum data p.1 p.2)) indicies)
  else none

/-- Model of `table14(year, wage_indicies, datapath)`, wage path: truncate the
DataFrame to its first 21 rows (`data.iloc[:21]`) and hand it to
`table14_wages`. -/
def table14 (data : List ℚ) (wage_indicies : List (Nat × Nat)) : Option (List Int) :=
  table14_wages (data.take 21) wage_indicies

/-!  Concrete tables used by counterexamples and witnesses. -/

/-- A sheet whose row 8 holds the label "Tax Year" and whose row 158
holds the near-miss label "Chained CPI-U index" in column A. -/
def T4 : Table :=
  List.replicate 7 [] ++ [[Cell.str "Tax Year"]] ++ List.replicate 149 [] ++
    [[Cell.str "Chained CPI-U index"]]

/-- A sheet whose row 158 holds the non-numeric string "oops" in its
column E data cell (and empty label cells elsewhere). -/
def T5 : Table :=
  List.replicate 157 [] ++
    [[Cell.empty, Cell.empty, Cell.empty, Cell.empty, Cell.str "oops"]]

/-- A sheet whose row 8 has empty (NaN) cells in all four label columns
A:D. -/
def T6 : Table :=
  List.replicate 7 [] ++ [[Cell.empty, Cell.empty, Cell.empty, Cell.empty]]

/-- A sheet whose row 8 holds "Tax Year", whose row 158 holds the
expected chained-CPI label, and whose row 158 column E data cell holds
the string "cpi2021". -/
def T2W : Table :=
  List.replicate 7 [] ++ [[Cell.str "Tax Year"]] ++ List.replicate 149 [] ++
    [[Cell.str "Chained consumer price index", Cell.empty, Cell.empty, Cell.empty,
      Cell.str "cpi2021"]]

/-- C7: `check_cbo_year` succeeds (returns 0) exactly when the year span
equals the column span; the 2021/E–2034/R schema passes (13 = 13) and
the same schema with last column Q fails; and when the check fails,
`read_check_spreadsheet` returns `None` with the STRUCT diagnostic
without looking at the spreadsheet (the result is a constant,
independent of the read outcome). -/
theorem claim_C7_schema_consistency :
    (∀ cy : CboYear,
      check_cbo_year cy = 0 ↔
        cy.last.year - cy.first.year = cindex cy.last.col - cindex cy.first.col) ∧
    check_cbo_year CBO_YEAR = 0 ∧
    check_cbo_year { first := { year := 2021, col := 'E' },
                     last := { year := 2034, col := 'Q' } } = 1 ∧
    (∀ (cy : CboYear) (rows : List (String × RowSpec)) (lky lby : Int)
        (readResult : Option Table),
      check_cbo_year cy ≠ 0 →
      read_check_spreadsheet_gen cy rows lky lby readResult =
        { stderr := ["STRUCT: CBO_YEAR contents are inconsistent"],
          out := Outcome.ret none }) := by
  refine ⟨?_, by decide, by decide, ?_⟩
  · intro cy
    simp only [check_cbo_year]
    split
    · simp_all
    · simp_all
  · intro cy rows lky lby readResult h
    simp only [read_check_spreadsheet_gen]
    rw [if_pos h]

/-- Witness for C7 at the mismatched schema 2021/E–2034/Q. -/
theorem claim_C7_schema_consistency_witness :
    read_check_spreadsheet_gen
      { first := { year := 2021, col := 'E' }, last := { year := 2034, col := 'Q' } }
      [] 0 0 none =
      { stderr := ["STRUCT: CBO_YEAR contents are inconsistent"],
        out := Outcome.ret none } :=
  claim_C7_schema_consistency.2.2.2 _ [] 0 0 none (by decide)

/-- C3: a query with an unknown parameter name, or a year strictly
before the first or strictly after the last CBO year, makes `cbo_value`
return Python `None` — never any cell value (numeric or otherwise) in
place of the error. -/
theorem claim_C3_invalid_query_signals_absence (t : Table) (name : String) (year : Int)
    (h : List.lookup name CBO_ROWS = none ∨
         year < CBO_YEAR.first.year ∨ CBO_YEAR.last.year < year) :
    cbo_value t name year = CboResult.noneVal ∧
    ∀ c : Cell, cbo_value t name year ≠ CboResult.value c := by
  have hmain : cbo_value t name year = CboResult.noneVal := by
    cases hl : List.lookup name CBO_ROWS with
    | none => simp [cbo_value, hl]
    | some cdict =>
      rcases h with h | h | h
      · rw [hl] at h; exact absurd h (by simp)
      · simp [cbo_value, hl, h]
      · by_cases h1 : year < CBO_YEAR.first.year
        · simp [cbo_value, hl, h1]
        · simp [cbo_value, hl, h1, h]
  exact ⟨hmain, fun c hc => by rw [hmain] at hc; exact CboResult.noConfusion hc⟩

/-- Witness for C3: year 2020 (one before the first CBO year) on an
empty sheet yields `None`. -/
theorem claim_C3_invalid_query_signals_absence_witness :
    cbo_value ([] : Table) "c_cpiu" 2020 = CboResult.noneVal :=
  (claim_C3_invalid_query_signals_absence ([] : Table) "c_cpiu" 2020
    (Or.inr (Or.inl (by decide)))).1

/-- Both entries of `CBO_ROWS` lack the optional "pct" key. -/
theorem lookup_cbo_rows_pct (name : String) (cdict : RowSpec)
    (hn : List.lookup name CBO_ROWS = some cdict) :
    cdict.pct = false := by
  simp only [CBO_ROWS, List.lookup] at hn
  split at hn
  · injection hn with h; subst h; rfl
  · split at hn
    · injection hn with h; subst h; rfl
    · exact Option.noConfusion hn

/-- C2: for a known field and an in-range year, `cbo_value` reads
exactly the cell at the field's row and at the column whose letter is
the first column shifted by `year - firstYear`: it returns that cell
when it exists and raises when the sheet is too small; the letter for
2021 is E and the letter for 2034 is R. -/
theorem claim_C2_year_to_column (t : Table) (name : String) (cdict : RowSpec) (year : Int)
    (hn : List.lookup name CBO_ROWS = some cdict)
    (h1 : CBO_YEAR.first.year ≤ year) (h2 : year ≤ CBO_YEAR.last.year) :
    (∀ cell : Cell,
      getCell t (rindex cdict.row) (cindex (cbo_letter year)).toNat = some cell →
      cbo_value t name year = CboResult.value cell) ∧
    (getCell t (rindex cdict.row) (cindex (cbo_letter year)).toNat = none →
      cbo_value t name year = CboResult.raised "IndexError") ∧
    cbo_letter 2021 = 'E' ∧ cbo_letter 2034 = 'R' := by
  have hpct := lookup_cbo_rows_pct name cdict hn
  have hy1 : ¬ year < CBO_YEAR.first.year := not_lt.mpr h1
  have hy2 : ¬ year > CBO_YEAR.last.year := not_lt.mpr h2
  refine ⟨?_, ?_, by decide, by decide⟩
  · intro cell hc
    simp [cbo_value, hn, hy1, hy2, hc, hpct]
  · intro hc
    simp [cbo_value, hn, hy1, hy2, hc]

/-- Witness for C2: on `T2W` the 2021 query reads row 158, column E
(index 4), finding the string cell stored there. -/
theorem claim_C2_year_to_column_witness :
    cbo_value T2W "c_cpiu" 2021 = CboResult.value (Cell.str "cpi2021") :=
  (claim_C2_year_to_column T2W "c_cpiu"
      { row := 158, label := "Chained consumer price index", pct := false } 2021
      (by decide) (by decide) (by decide)).1
    (Cell.str "cpi2021") (by decide)

/-- C5, counterexample to the claim as stated: on `T5` the in-range
query ("c_cpiu", 2021) addresses a cell holding the non-numeric string
"oops", and `cbo_value` returns that value unchanged instead of failing
— no `LookupError` (modelled by the `None` return) is produced. -/
theorem claim_C5_counterexample :
    cbo_value T5 "c_cpiu" 2021 = CboResult.value (Cell.str "oops") ∧
    cbo_value T5 "c_cpiu" 2021 ≠ CboResult.noneVal := by
  decide

/-- C5 as amended: for every in-range query, `cbo_value` returns the
addressed cell value verbatim — with no coercion and no numeric check —
whatever that value is (numeric, string, or empty). -/
theorem claim_C5_amended_returns_cell_verbatim (t : Table) (name : String)
    (cdict : RowSpec) (year : Int) (cell : Cell)
    (hn : List.lookup name CBO_ROWS = some cdict)
    (h1 : CBO_YEAR.first.year ≤ year) (h2 : year ≤ CBO_YEAR.last.year)
    (hc : getCell t (rindex cdict.row) (cindex (cbo_letter year)).toNat = some cell) :
    cbo_value t name year = CboResult.value cell := by
  have hpct := lookup_cbo_rows_pct name cdict hn
  have hy1 : ¬ year < CBO_YEAR.first.year := not_lt.mpr h1
  have hy2 : ¬ year > CBO_YEAR.last.year := not_lt.mpr h2
  simp [cbo_value, hn, hy1, hy2, hc, hpct]

/-- Witness for the amended C5: the non-numeric cell of `T5` comes back
verbatim. -/
theorem claim_C5_amended_returns_cell_verbatim_witness :
    cbo_value T5 "c_cpiu" 2021 = CboResult.value (Cell.str "oops") :=
  claim_C5_amended_returns_cell_verbatim T5 "c_cpiu"
    { row := 158, label := "Chained consumer price index", pct := false } 2021
    (Cell.str "oops") (by decide) (by decide) (by decide) (by decide)

/-- C4: the label matcher `alabel.startswith(elabel)` accepts exactly
when the expected text is a character-for-character prefix of the found
label (no case folding, no normalization); in particular
"Chained CPI-U index" is rejected against the expected prefix
"Chained consumer price index", so validation of that field fails with
the diagnostic naming both strings. -/
theorem claim_C4_prefix_matching :
    (∀ l p : String, str_startswith l p = true ↔ p.data <+: l.data) ∧
    str_startswith "Chained CPI-U index" "Chained consumer price index" = false ∧
    check_fields T4 CBO_ROWS =
      { stderr := ["READ: for c_cpiu expected label is Chained consumer price index but found Chained CPI-U index"],
        out := Outcome.ret none } := by
  refine ⟨?_, by decide, by decide⟩
  intro l p
  simp [str_startswith]

/-- Witness for C4: a genuine prefix is accepted. -/
theorem claim_C4_prefix_matching_witness :
    str_startswith "Tax Year 2021" "Tax Year" = true :=
  (claim_C4_prefix_matching.1 "Tax Year 2021" "Tax Year").mpr ⟨" 2021".data, rfl⟩

/-- C6: the code is at odds with the intended diagnostic here.  On a
sheet whose configured row has NaN in every label column (`T6`),
`read_cbo_label` returns Python `None`, and the validation loop then
calls `None.startswith(...)`, so `read_check_spreadsheet` dies with an
`AttributeError` — no error message naming the field is written and no
`None` is returned as the docstring promises. -/
theorem claim_C6_missing_label_crashes :
    read_cbo_label T6 8 = LabelResult.noLabel ∧
    read_check_spreadsheet 2023 2034 (some T6) =
      { stderr := [], out := Outcome.exn "AttributeError" } := by
  decide

/-- The validation loop stops at the first field whose found label does
not start with the expected one: whatever fields follow, the run emits
exactly the one diagnostic for that field and returns `None`. -/
theorem check_fields_fail_at (t : Table) (cname : String) (cdict : RowSpec)
    (alabel : String)
    (hlab : read_cbo_label t cdict.row = LabelResult.found alabel)
    (hpref : str_startswith alabel cdict.label = false) :
    ∀ pre post : List (String × RowSpec),
      (∀ p ∈ pre, ∃ l, read_cbo_label t p.2.row = LabelResult.found l ∧
          str_startswith l p.2.label = true) →
      check_fields t (pre ++ (cname, cdict) :: post) =
        { stderr := ["READ: for " ++ cname ++ " expected label is " ++ cdict.label ++
                     " but found " ++ alabel],
          out := Outcome.ret none } := by
  intro pre
  induction pre with
  | nil =>
    intro post _
    simp [check_fields, hlab, hpref]
  | cons q pre ih =>
    intro post hpre
    obtain ⟨l, hl, hok⟩ := hpre q (List.mem_cons_self _ _)
    have hrest := ih post (fun p hp => hpre p (List.mem_cons_of_mem _ hp))
    cases q with
    | mk qn qd =>
      simp only [List.cons_append, check_fields, hl, hok, if_true]
      exact hrest

/-- When the schema consistency check and both Policy-year checks pass
and the sheet reads successfully, `read_check_spreadsheet` comes down to
the per-field validation loop. -/
theorem read_check_gen_passes (cy : CboYear) (rows : List (String × RowSpec))
    (lky lby : Int) (t : Table)
    (hcy : check_cbo_year cy = 0)
    (hlky1 : cy.first.year + 1 ≤ lky) (hlky2 : lky < cy.last.year)
    (hlby1 : cy.first.year + 2 ≤ lby) (hlby2 : lby < cy.last.year + 1) :
    read_check_spreadsheet_gen cy rows lky lby (some t) = check_fields t rows := by
  simp only [read_check_spreadsheet_gen, hcy]
  simp [hlky1, hlky2, hlby1, hlby2]

/-- C1: for any table and any schema whose up-front checks pass, at the
first field whose found label does not start with the expected prefix,
`read_check_spreadsheet` stops — the result does not depend on the
fields after it — writes the single diagnostic naming the field, the
expected prefix, and the label actually found, and returns `None`, so
no table reaches the caller. -/
theorem claim_C1_validation_fails_fast (cy : CboYear)
    (rows pre post : List (String × RowSpec)) (cname : String) (cdict : RowSpec)
    (alabel : String) (lky lby : Int) (t : Table)
    (hrows : rows = pre ++ (cname, cdict) :: post)
    (hcy : check_cbo_year cy = 0)
    (hlky1 : cy.first.year + 1 ≤ lky) (hlky2 : lky < cy.last.year)
    (hlby1 : cy.first.year + 2 ≤ lby) (hlby2 : lby < cy.last.year + 1)
    (hpre : ∀ p ∈ pre, ∃ l, read_cbo_label t p.2.row = LabelResult.found l ∧
        str_startswith l p.2.label = true)
    (hlab : read_cbo_label t cdict.row = LabelResult.found alabel)
    (hpref : str_startswith alabel cdict.label = false) :
    read_check_spreadsheet_gen cy rows lky lby (some t) =
      { stderr := ["READ: for " ++ cname ++ " expected label is " ++ cdict.label ++
                   " but found " ++ alabel],
        out := Outcome.ret none } := by
  subst hrows
  rw [read_check_gen_passes cy _ lky lby t hcy hlky1 hlky2 hlby1 hlby2]
  exact check_fields_fail_at t cname cdict alabel hlab hpref pre post hpre

/-- Witness for C1: on `T4` with the script's own schema, the "year"
field passes, validation stops at "c_cpiu" with its diagnostic, and
`None` is returned. -/
theorem claim_C1_validation_fails_fast_witness :
    read_check_spreadsheet_gen CBO_YEAR CBO_ROWS 2023 2034 (some T4) =
      { stderr := ["READ: for c_cpiu expected label is Chained consumer price index but found Chained CPI-U index"],
        out := Outcome.ret none } :=
  claim_C1_validation_fails_fast CBO_YEAR CBO_ROWS
    [("year", { row := 8, label := "Tax Year", pct := false })] []
    "c_cpiu" { row := 158, label := "Chained consumer price index", pct := false }
    "Chained CPI-U index" 2023 2034 T4
    (by decide) (by decide) (by decide) (by decide) (by decide) (by decide)
    (by
      intro p hp
      simp only [List.mem_singleton] at hp
      subst hp
      exact ⟨"Tax Year", by decide, by decide⟩)
    (by decide) (by decide)

/-- C8: the label taken for a row is the first non-"nan" string among
label columns 0, 1, 2, 3 scanned left to right: if every label column
before `k` holds the "nan" sentinel and column `k` holds a non-sentinel
value, the result is column `k`'s string — and any table that agrees
with this one on columns up to `k` of that row (the later label columns
being arbitrary) produces the same result. -/
theorem claim_C8_first_label_left_to_right (t tp : Table) (row k : Nat) (c : Cell)
    (hk : k ∈ CBO_STR_COLS)
    (hbefore : ∀ j ∈ CBO_STR_COLS, j < k →
        ∃ cj, getCell t (rindex row) j = some cj ∧ cellStr cj = "nan")
    (hc : getCell t (rindex row) k = some c)
    (hnn : cellStr c ≠ "nan")
    (hagree : ∀ j, j ≤ k → getCell tp (rindex row) j = getCell t (rindex row) j) :
    read_cbo_label t row = LabelResult.found (cellStr c) ∧
    read_cbo_label tp row = LabelResult.found (cellStr c) := by
  have hk4 : k = 0 ∨ k = 1 ∨ k = 2 ∨ k = 3 := by
    simpa [CBO_STR_COLS] using hk
  have h0 := fun h => hbefore 0 (by simp [CBO_STR_COLS]) h
  have h1 := fun h => hbefore 1 (by simp [CBO_STR_COLS]) h
  have h2 := fun h => hbefore 2 (by simp [CBO_STR_COLS]) h
  rcases hk4 with rfl | rfl | rfl | rfl
  · refine ⟨?_, ?_⟩
    · simp [read_cbo_label, read_cbo_labelAux, CBO_STR_COLS, hc, hnn]
    · simp [read_cbo_label, read_cbo_labelAux, CBO_STR_COLS,
        hagree 0 (by omega), hc, hnn]
  · obtain ⟨c0, hc0, hn0⟩ := h0 (by omega)
    refine ⟨?_, ?_⟩
    · simp [read_cbo_label, read_cbo_labelAux, CBO_STR_COLS, hc0, hn0, hc, hnn]
    · simp [read_cbo_label, read_cbo_labelAux, CBO_STR_COLS,
        hagree 0 (by omega), hagree 1 (by omega), hc0, hn0, hc, hnn]
  · obtain ⟨c0, hc0, hn0⟩ := h0 (by omega)
    obtain ⟨c1, hc1, hn1⟩ := h1 (by omega)
    refine ⟨?_, ?_⟩
    · simp [read_cbo_label, read_cbo_labelAux, CBO_STR_COLS, hc0, hn0, hc1, hn1, hc, hnn]
    · simp [read_cbo_label, read_cbo_labelAux, CBO_STR_COLS,
        hagree 0 (by omega), hagree 1 (by omega), hagree 2 (by omega),
        hc0, hn0, hc1, hn1, hc, hnn]
  · obtain ⟨c0, hc0, hn0⟩ := h0 (by omega)
    obtain ⟨c1, hc1, hn1⟩ := h1 (by omega)
    obtain ⟨c2, hc2, hn2⟩ := h2 (by omega)
    refine ⟨?_, ?_⟩
    · simp [read_cbo_label, read_cbo_labelAux, CBO_STR_COLS,
        hc0, hn0, hc1, hn1, hc2, hn2, hc, hnn]
    · simp [read_cbo_label, read_cbo_labelAux, CBO_STR_COLS,
        hagree 0 (by omega), hagree 1 (by omega), hagree 2 (by omega),
        hagree 3 (by omega), hc0, hn0, hc1, hn1, hc2, hn2, hc, hnn]

/-- Witness for C8: with column 0 holding NaN and column 1 holding "L",
the label is "L", on the original row and on a variant whose later
columns differ. -/
theorem claim_C8_first_label_left_to_right_witness :
    read_cbo_label [[Cell.empty, Cell.str "L"]] 1 = LabelResult.found "L" ∧
    read_cbo_label [[Cell.empty, Cell.str "L", Cell.str "junk", Cell.str "junk2"]] 1 =
      LabelResult.found "L" :=
  claim_C8_first_label_left_to_right
    [[Cell.empty, Cell.str "L"]]
    [[Cell.empty, Cell.str "L", Cell.str "junk", Cell.str "junk2"]]
    1 1 (Cell.str "L")
    (by decide)
    (by
      intro j hj hjk
      have hj0 : j = 0 := by
        simp [CBO_STR_COLS] at hj
        omega
      subst hj0
      exact ⟨Cell.empty, by decide, by decide⟩)
    (by decide) (by decide)
    (by
      intro j hj
      interval_cases j <;> decide)

/-- Sum of a `drop`/`take` slice as a sum over shifted positions. -/
theorem take_drop_sum (xs : List ℚ) :
    ∀ (n i : Nat), i + n ≤ xs.length →
      ((xs.drop i).take n).sum = ∑ k in Finset.range n, xs.getD (i + k) 0 := by
  intro n
  induction n with
  | zero => intro i h; simp
  | succ m ih =>
    intro i h
    have hm : i + m < xs.length := by omega
    have hget : (xs.drop i)[m]? = some (xs.getD (i + m) 0) := by
      rw [List.getElem?_drop, List.getElem?_eq_getElem hm]
      simp [List.getD_eq_getElem?_getD, List.getElem?_eq_getElem hm]
    rw [List.take_succ, List.sum_append, ih i (by omega), Finset.sum_range_succ, hget]
    simp

/-- The slice sum over `[i, j]` is the sum of the column's values at the
rows of the inclusive interval. -/
theorem sliceSum_eq_sum_Icc (xs : List ℚ) (i j : Nat)
    (hij : i ≤ j) (hj : j < xs.length) :
    sliceSum xs i j = ∑ r in Finset.Icc i j, xs.getD r 0 := by
  rw [sliceSum, take_drop_sum xs (j + 1 - i) i (by omega), ← Nat.Ico_succ_right,
    Finset.sum_Ico_eq_sum_range]

/-- C9: each bucket sum `data.iloc[i : j + 1].sum()` is the sum of the
wage-column values at every row from `i` through `j`, both endpoints
included; consequently `table14_wages` on a 21-row column returns, for
each configured `(i, j)` pair, exactly the aggregate of rows `i`
through `j`. -/
theorem claim_C9_inclusive_bucket_sums (xs : List ℚ) (i j : Nat)
    (idx : List (Nat × Nat))
    (hij : i ≤ j) (hj : j < xs.length)
    (hidx : idx = PUFWAGES ∨ idx = CPSWAGES) (hlen : xs.length = 21) :
    sliceSum xs i j = ∑ r in Finset.Icc i j, xs.getD r 0 ∧
    table14_wages xs idx =
      some (List.map (fun p => ratTrunc (∑ r in Finset.Icc p.1 p.2, xs.getD r 0)) idx) := by
  refine ⟨sliceSum_eq_sum_Icc xs i j hij hj, ?_⟩
  rw [table14_wages, if_pos hlen]
  congr 1
  apply List.map_congr_left
  intro p hp
  congr 1
  have hb : p.1 ≤ p.2 ∧ p.2 < xs.length := by
    rcases hidx with rfl | rfl <;> (fin_cases hp <;> simp [hlen])
  exact sliceSum_eq_sum_Icc xs p.1 p.2 hb.1 hb.2

/-- Witness for C9 on a concrete 21-row column. -/
theorem claim_C9_inclusive_bucket_sums_witness :
    sliceSum (List.replicate 21 (1 : ℚ)) 2 2 =
      ∑ r in Finset.Icc 2 2, (List.replicate 21 (1 : ℚ)).getD r 0 ∧
    table14_wages (List.replicate 21 (1 : ℚ)) PUFWAGES =
      some (List.map
        (fun p => ratTrunc (∑ r in Finset.Icc p.1 p.2, (List.replicate 21 (1 : ℚ)).getD r 0))
        PUFWAGES) :=
  claim_C9_inclusive_bucket_sums (List.replicate 21 (1 : ℚ)) 2 2 PUFWAGES
    (by decide) (by simp) (Or.inl rfl) (by simp)

/-- C10: `table14` truncates the sheet to its first 21 rows and
`table14_wages` asserts exactly 21 rows before summing any bucket (a
shorter sheet trips the assertion and nothing is summed); under that
check every configured bucket range in `PUFWAGES` and `CPSWAGES` ends at
row 20 or earlier, inside the table, and each bucket's slice has its
full length — no bucket sum reads past the end of the table. -/
theorem claim_C10_buckets_in_bounds (raw : List ℚ) (idx : List (Nat × Nat))
    (hidx : idx = PUFWAGES ∨ idx = CPSWAGES) (hlen : 21 ≤ raw.length) :
    (raw.take 21).length = 21 ∧
    (table14 raw idx).isSome = true ∧
    (∀ q : List ℚ, q.length < 21 → table14 q idx = none) ∧
    (∀ p ∈ idx, p.2 < (raw.take 21).length ∧
      (((raw.take 21).drop p.1).take (p.2 + 1 - p.1)).length = p.2 + 1 - p.1) := by
  have h21 : (raw.take 21).length = 21 := by
    simp [List.length_take]
    omega
  refine ⟨h21, ?_, ?_, ?_⟩
  · rw [table14, table14_wages, if_pos h21]
    rfl
  · intro q hq
    have : (q.take 21).length = q.length := by
      simp [List.length_take]
      omega
    rw [table14, table14_wages, if_neg (by omega)]
  · intro p hp
    have hb : p.1 ≤ p.2 ∧ p.2 < 21 := by
      rcases hidx with rfl | rfl <;> (fin_cases hp <;> simp)
    refine ⟨by omega, ?_⟩
    simp [List.length_take, List.length_drop, h21]
    omega

/-- Witness for C10 with a 25-row sheet and the PUF bucket list. -/
theorem claim_C10_buckets_in_bounds_witness :
    ((List.replicate 25 (0 : ℚ)).take 21).length = 21 ∧
    (table14 (List.replicate 25 (0 : ℚ)) PUFWAGES).isSome = true ∧
    (∀ q : List ℚ, q.length < 21 → table14 q PUFWAGES = none) ∧
    (∀ p ∈ PUFWAGES, p.2 < ((List.replicate 25 (0 : ℚ)).take 21).length ∧
      ((((List.replicate 25 (0 : ℚ)).take 21).drop p.1).take (p.2 + 1 - p.1)).length =
        p.2 + 1 - p.1) :=
  claim_C10_buckets_in_bounds (List.replicate 25 (0 : ℚ)) PUFWAGES
    (Or.inl rfl) (by simp)
